import Mathlib

/-
Verification of the URL-shortener lambda handlers.

The embedding models the two AWS Lambda entry points of the repository:
`lambda/create_short_url.py` and `lambda/redirect_url.py`.

External collaborators are modelled explicitly:
* The DynamoDB table is an association list from short codes to records
  (`Store`).  The conditional `put_item` with
  `ConditionExpression = attribute_not_exists(short_code)` inserts only when
  the key is absent, otherwise it raises `ConditionalCheckFailedException`.
  Other `ClientError`s the store may raise are injected through a fault
  schedule `faults : Nat → Option StoreError` indexed by the attempt number
  (and, for the redirect handler, a single optional fault for its one read).
* `secrets.choice(ALPHABET)` is a draw from a random stream
  `rand : Nat → Nat`; draw number `i` picks `ALPHABET[rand i % 62]`.
  `generate_short_code` consumes eight consecutive draws.
* `int(time.time())` is a read from a clock stream `clock : Nat → Nat`;
  the create handler reads the clock twice per attempt (once for
  `created_at`, once for `expires_at`), exactly as the Python source calls
  `int(time.time())` twice when building the item.
* `json.loads` of the request body is represented by its outcome: a value
  `Except Unit PyJson` — `Except.error ()` is a `json.JSONDecodeError`,
  `Except.ok v` is the parsed Python value.  Python values carry their full
  dynamic type: calling `.get` on a non-dict or `.strip()` on a non-string
  raises `AttributeError`, which propagates out of the handler uncaught
  (`HandlerOutcome.uncaught`).
* Python `str.strip()`, `str.startswith`, and `str.rstrip("/")` are
  modelled by `pyStrip`, `pyStartswith`, `pyRstripSlash` on character lists.
-/

/-- One DynamoDB record written by the create handler. -/
structure Item where
  long_url : String
  created_at : Nat
  expires_at : Nat

/-- The DynamoDB table keyed by `short_code`. -/
abbrev Store := List (String × Item)

/-- A botocore `ClientError`: its error code and its rendered detail. -/
structure StoreError where
  code : String
  detail : String

/-- A Python value produced by `json.loads`. -/
inductive PyJson where
  | null
  | bool (b : Bool)
  | num (n : Int)
  | str (s : String)
  | arr (elems : List PyJson)
  | obj (members : List (String × PyJson))

/-- Body of an API-Gateway response: a JSON object (all values in this code
are strings) or a raw string (the empty body of the 301 redirect). -/
inductive RespBody where
  | json (fields : List (String × String))
  | raw (s : String)

/-- The dict each lambda returns to API Gateway. -/
structure Response where
  statusCode : Nat
  headers : List (String × String)
  body : RespBody

/-- Either a returned response, or an exception escaping the handler. -/
inductive HandlerOutcome where
  | resp (r : Response)
  | uncaught (exc : String)

/-- The `_response` helper shared by both lambda files. -/
def _response (statusCode : Nat) (body : List (String × String)) : Response :=
  { statusCode := statusCode,
    headers := [("Content-Type", "application/json"),
                ("Access-Control-Allow-Origin", "*")],
    body := RespBody.json body }

/-- `string.ascii_letters + string.digits`. -/
def ALPHABET : String :=
  "abcdefghijklmnopqrstuvwxyzABCDEFGHIJKLMNOPQRSTUVWXYZ0123456789"

def CODE_LENGTH : Nat := 8

/-- `secrets.choice(alphabet)` given the value `r` of the random draw. -/
def secretsChoice (alphabet : String) (r : Nat) : Char :=
  alphabet.toList.getD (r % alphabet.toList.length) 'a'

/-- `generate_short_code()`, consuming draws `k, k+1, …, k+7` of the
random stream. -/
def generate_short_code (rand : Nat → Nat) (k : Nat) : String :=
  String.mk ((List.range CODE_LENGTH).map (fun i => secretsChoice ALPHABET (rand (k + i))))

/-- Python `str.strip()` (no arguments): remove leading and trailing
whitespace. -/
def pyStrip (s : String) : String :=
  String.mk (((s.toList.dropWhile Char.isWhitespace).reverse.dropWhile Char.isWhitespace).reverse)

/-- Does the first list start with the second? -/
def hasHead : List Char → List Char → Bool
  | _, [] => true
  | [], _ :: _ => false
  | c :: s, d :: p => c == d && hasHead s p

/-- Python `s.startswith(p)`. -/
def pyStartswith (s p : String) : Bool :=
  hasHead s.toList p.toList

/-- Python `s.rstrip("/")`: drop trailing slash characters. -/
def pyRstripSlash (s : String) : String :=
  String.mk ((s.toList.reverse.dropWhile (fun c => c == '/')).reverse)

/-- Python `dict.get(k, d)` on a JSON object. -/
def pyGet (members : List (String × PyJson)) (k : String) (d : PyJson) : PyJson :=
  match members.find? (fun m => m.1 == k) with
  | some m => m.2
  | none => d

/-- Whether the table holds the key (the `attribute_not_exists` condition
fails exactly when it does). -/
def storeHasKey (σ : Store) (k : String) : Bool :=
  σ.any (fun e => e.1 == k)

/-- `table.get_item(Key={"short_code": k})`, returning the found item. -/
def storeGetItem (σ : Store) (k : String) : Option Item :=
  (σ.find? (fun e => e.1 == k)).map (fun e => e.2)

/-- A single-quote character as a string (used by the 404 message). -/
def squote : String := String.mk [Char.ofNat 39]

/-- The `for _ in range(5)` collision loop of `lambda_handler` in
`create_short_url.py`, starting at attempt `j` with `fuel` iterations left.
Attempt `j` consumes random draws `8*j … 8*j+7` and clock reads
`2*j` (for `created_at`) and `2*j+1` (for `expires_at`).  The returned
`Nat` counts the `put_item` calls that were made.  The final component of
the `| _, 0` arm is the post-loop `return _response(500, …)`. -/
def createLoop (rand clock : Nat → Nat) (faults : Nat → Option StoreError)
    (base_url long_url : String) (σ : Store) : Nat → Nat → HandlerOutcome × Store × Nat
  | _, 0 =>
    (HandlerOutcome.resp (_response 500
        [("error", "Could not generate a unique short code. Try again.")]), σ, 0)
  | j, fuel + 1 =>
    let short_code := generate_short_code rand (CODE_LENGTH * j)
    let item : Item :=
      { long_url := long_url,
        created_at := clock (2 * j),
        expires_at := clock (2 * j + 1) + 60 * 60 * 24 * 90 }
    match faults j with
    | some e =>
      if e.code = "ConditionalCheckFailedException" then
        let step := createLoop rand clock faults base_url long_url σ (j + 1) fuel
        (step.1, step.2.1, step.2.2 + 1)
      else
        (HandlerOutcome.resp (_response 500
            [("error", "Database error"), ("detail", e.detail)]), σ, 1)
    | none =>
      if storeHasKey σ short_code then
        let step := createLoop rand clock faults base_url long_url σ (j + 1) fuel
        (step.1, step.2.1, step.2.2 + 1)
      else
        (HandlerOutcome.resp (_response 201
            [("short_url", pyRstripSlash base_url ++ "/" ++ short_code),
             ("short_code", short_code),
             ("long_url", long_url),
             ("expires_in", "90 days")]),
         (short_code, item) :: σ, 1)

/-- `lambda_handler` of `create_short_url.py`.  `body` is the outcome of
`json.loads(event.get("body") or "{}")`; `base_url` is
`os.environ["BASE_URL"]`.  Returns the outcome together with the final
table state and the number of `put_item` calls made. -/
def create_lambda_handler (rand clock : Nat → Nat) (faults : Nat → Option StoreError)
    (base_url : String) (body : Except Unit PyJson) (σ : Store) :
    HandlerOutcome × Store × Nat :=
  match body with
  | Except.error _ =>
    (HandlerOutcome.resp (_response 400 [("error", "Request body must be valid JSON")]), σ, 0)
  | Except.ok v =>
    match v with
    | PyJson.obj members =>
      match pyGet members "long_url" (PyJson.str "") with
      | PyJson.str raw =>
        let long_url := pyStrip raw
        if long_url = "" then
          (HandlerOutcome.resp (_response 400 [("error", "long_url is required")]), σ, 0)
        else if (pyStartswith long_url "http://" || pyStartswith long_url "https://") = false then
          (HandlerOutcome.resp (_response 400
              [("error", "long_url must start with http:// or https://")]), σ, 0)
        else
          createLoop rand clock faults base_url long_url σ 0 5
      | _ => (HandlerOutcome.uncaught "AttributeError", σ, 0)
    | _ => (HandlerOutcome.uncaught "AttributeError", σ, 0)

/-- `lambda_handler` of `redirect_url.py`.  `pathParameters` is
`event.get("pathParameters")`; `fault` is an optional `ClientError` raised
by the single `get_item` call. -/
def redirect_lambda_handler (pathParameters : Option (List (String × PyJson)))
    (fault : Option StoreError) (σ : Store) : HandlerOutcome :=
  let path_params := pathParameters.getD []
  match pyGet path_params "short_code" (PyJson.str "") with
  | PyJson.str raw =>
    let short_code := pyStrip raw
    if short_code = "" then
      HandlerOutcome.resp (_response 400 [("error", "short_code is required")])
    else
      match fault with
      | some e =>
        HandlerOutcome.resp (_response 500 [("error", "Database error"), ("detail", e.detail)])
      | none =>
        match storeGetItem σ short_code with
        | none =>
          HandlerOutcome.resp (_response 404
            [("error", "Short code " ++ squote ++ short_code ++ squote ++ " not found")])
        | some item =>
          HandlerOutcome.resp
            { statusCode := 301,
              headers := [("Location", item.long_url), ("Access-Control-Allow-Origin", "*")],
              body := RespBody.raw "" }
  | _ => HandlerOutcome.uncaught "AttributeError"

/-- Look a field up in a JSON response body. -/
def respField (r : Response) (k : String) : Option String :=
  match r.body with
  | RespBody.json fields => (fields.find? (fun f => f.1 == k)).map (fun f => f.2)
  | RespBody.raw _ => none

/-- The status code of an outcome, `none` when an exception escaped. -/
def outcomeStatus : HandlerOutcome → Option Nat
  | HandlerOutcome.resp r => some r.statusCode
  | HandlerOutcome.uncaught _ => none

/-- Attempt `i` of the collision loop fails its conditional write: either
the fault schedule raises `ConditionalCheckFailedException` at call `i`, or
the store behaves normally and the candidate code is already present. -/
def condFailB (rand : Nat → Nat) (faults : Nat → Option StoreError) (σ : Store) (i : Nat) : Bool :=
  match faults i with
  | some e => e.code == "ConditionalCheckFailedException"
  | none => storeHasKey σ (generate_short_code rand (CODE_LENGTH * i))

/-- A random stream that always draws 0, so every generated code is
`"aaaaaaaa"`. -/
def rand0 : Nat → Nat := fun _ => 0

/-- A clock frozen at second 100. -/
def clock0 : Nat → Nat := fun _ => 100

/-- A clock that advances one second per read. -/
def clockInc : Nat → Nat := fun i => 100 + i

/-- A store that never raises. -/
def noFaults : Nat → Option StoreError := fun _ => none

/-- A store whose every call raises a non-conditional `ClientError`. -/
def errFaults : Nat → Option StoreError :=
  fun _ => some { code := "InternalServerError", detail := "boom" }

def body0 : Except Unit PyJson :=
  Except.ok (PyJson.obj [("long_url", PyJson.str "https://example.com/page")])

def item201c : Item :=
  { long_url := "https://example.com/page", created_at := 100, expires_at := 7776100 }

def resp201c : Response :=
  _response 201 [("short_url", "https://sh.rt/aaaaaaaa"), ("short_code", "aaaaaaaa"),
    ("long_url", "https://example.com/page"), ("expires_in", "90 days")]

def store201c : Store := [("aaaaaaaa", item201c)]

def item0 : Item :=
  { long_url := "https://old.example/x", created_at := 0, expires_at := 7776000 }

/-- A store already holding the code `"aaaaaaaa"` that `rand0` generates. -/
def store1 : Store := [("aaaaaaaa", item0)]

/-! ### Library-level helper lemmas -/

theorem dropWhile_eq_self_of_false (p : Char → Bool) (l : List Char)
    (h : ∀ c ∈ l, p c = false) : l.dropWhile p = l := by
  cases l with
  | nil => rfl
  | cons a l => simp [List.dropWhile_cons, h a (List.mem_cons_self a l)]

theorem dropWhile_eq_nil_of_true (p : Char → Bool) (l : List Char)
    (h : ∀ c ∈ l, p c = true) : l.dropWhile p = [] := by
  induction l with
  | nil => rfl
  | cons a l ih =>
    simp only [List.dropWhile_cons, h a (List.mem_cons_self a l), if_true]
    exact ih (fun c hc => h c (List.mem_cons_of_mem a hc))

theorem getD_default_or_mem (l : List Char) (n : Nat) (d : Char) :
    l.getD n d = d ∨ l.getD n d ∈ l := by
  induction l generalizing n with
  | nil => left; simp [List.getD]
  | cons a l ih =>
    cases n with
    | zero => right; simp [List.getD]
    | succ n =>
      rcases ih n with h | h
      · left; simpa [List.getD] using h
      · right; simp only [List.getD] at h ⊢
        simpa using Or.inr (by simpa using h)

/-! ### Facts about the generated codes and Python string helpers -/

theorem ALPHABET_no_ws : ∀ c ∈ ALPHABET.toList, Char.isWhitespace c = false := by decide

theorem ALPHABET_alnum : ∀ c ∈ ALPHABET.toList, (c.isAlpha || c.isDigit) = true := by decide

theorem secretsChoice_mem (r : Nat) : secretsChoice ALPHABET r ∈ ALPHABET.toList := by
  unfold secretsChoice
  rcases getD_default_or_mem ALPHABET.toList (r % ALPHABET.toList.length) 'a' with h | h
  · rw [h]; decide
  · exact h

theorem gen_chars (rand : Nat → Nat) (k : Nat) :
    ∀ c ∈ (generate_short_code rand k).toList, c ∈ ALPHABET.toList := by
  intro c hc
  have hm : c ∈ (List.range CODE_LENGTH).map (fun i => secretsChoice ALPHABET (rand (k + i))) := hc
  obtain ⟨i, -, hi⟩ := List.mem_map.mp hm
  rw [← hi]
  exact secretsChoice_mem _

theorem gen_length (rand : Nat → Nat) (k : Nat) : (generate_short_code rand k).length = 8 := rfl

theorem gen_ne_empty (rand : Nat → Nat) (k : Nat) : ¬(generate_short_code rand k = "") := by
  intro h
  have h2 : (generate_short_code rand k).toList.length = 0 := by rw [h]; rfl
  have h3 : (generate_short_code rand k).toList.length = 8 := rfl
  omega

theorem string_mk_toList (s : String) : String.mk s.toList = s := by
  cases s
  rfl

theorem pyStrip_eq_self (s : String)
    (h : ∀ c ∈ s.toList, Char.isWhitespace c = false) : pyStrip s = s := by
  unfold pyStrip
  rw [dropWhile_eq_self_of_false _ _ h]
  rw [dropWhile_eq_self_of_false _ _ (fun c hc => h c (List.mem_reverse.mp hc))]
  rw [List.reverse_reverse]
  exact string_mk_toList s

theorem pyStrip_empty_of_ws (s : String)
    (h : ∀ c ∈ s.toList, Char.isWhitespace c = true) : pyStrip s = "" := by
  unfold pyStrip
  rw [dropWhile_eq_nil_of_true _ _ h]
  rfl

theorem pyStrip_gen (rand : Nat → Nat) (k : Nat) :
    pyStrip (generate_short_code rand k) = generate_short_code rand k :=
  pyStrip_eq_self _ (fun c hc => ALPHABET_no_ws c (gen_chars rand k c hc))

/-! ### Facts about the store and responses -/

theorem storeGetItem_cons_self (c : String) (it : Item) (σ : Store) :
    storeGetItem ((c, it) :: σ) c = some it := by
  simp [storeGetItem, List.find?_cons]

theorem storeGetItem_cons_ne (c : String) (it : Item) (σ : Store) (k : String)
    (h : ¬(c = k)) : storeGetItem ((c, it) :: σ) k = storeGetItem σ k := by
  have hb : (c == k) = false := beq_eq_false_iff_ne.mpr h
  simp [storeGetItem, List.find?_cons, hb]

theorem storeHasKey_true_ne (σ : Store) (k c : String)
    (hk : storeHasKey σ k = true) (hc : storeHasKey σ c = false) : ¬(c = k) := by
  intro h
  rw [h] at hc
  rw [hk] at hc
  exact Bool.noConfusion hc

theorem statusCode_response (c : Nat) (L : List (String × String)) :
    (_response c L).statusCode = c := rfl

theorem respField_short_code (a u e2 c : String) :
    respField (_response 201 [("short_url", a), ("short_code", c), ("long_url", u),
      ("expires_in", e2)]) "short_code" = some c := rfl

theorem respField_long_url (a u e2 c : String) :
    respField (_response 201 [("short_url", a), ("short_code", c), ("long_url", u),
      ("expires_in", e2)]) "long_url" = some u := rfl

/-! ### Characterizations of the collision loop -/

/-- Any run of the collision loop that returns a 201 response inserted a
code that was absent from the table at that moment: the loop leaves the
table untouched on every failed attempt, succeeds at some attempt `j2`,
and returns the table extended with exactly that attempt's record. -/
theorem createLoop_201 (rand clock : Nat → Nat) (faults : Nat → Option StoreError)
    (b u : String) (σ : Store) :
    ∀ (fuel j : Nat) (r : Response) (σ2 : Store) (n : Nat),
      createLoop rand clock faults b u σ j fuel = (HandlerOutcome.resp r, σ2, n) →
      r.statusCode = 201 →
      ∃ j2, j ≤ j2 ∧ j2 < j + fuel ∧
        storeHasKey σ (generate_short_code rand (CODE_LENGTH * j2)) = false ∧
        σ2 = (generate_short_code rand (CODE_LENGTH * j2),
              { long_url := u, created_at := clock (2 * j2),
                expires_at := clock (2 * j2 + 1) + 60 * 60 * 24 * 90 }) :: σ ∧
        r = _response 201
          [("short_url", pyRstripSlash b ++ "/" ++ generate_short_code rand (CODE_LENGTH * j2)),
           ("short_code", generate_short_code rand (CODE_LENGTH * j2)),
           ("long_url", u),
           ("expires_in", "90 days")] := by
  intro fuel
  induction fuel with
  | zero =>
    intro j r σ2 n heq h201
    simp only [createLoop, Prod.mk.injEq, HandlerOutcome.resp.injEq] at heq
    obtain ⟨hr, -, -⟩ := heq
    rw [← hr, statusCode_response] at h201
    exact absurd h201 (by decide)
  | succ fuel ih =>
    intro j r σ2 n heq h201
    simp only [createLoop] at heq
    split at heq
    next e hf =>
      split at heq
      next hc =>
        rcases htriple : createLoop rand clock faults b u σ (j + 1) fuel with ⟨o, σ3, m⟩
        rw [htriple] at heq
        simp only [Prod.mk.injEq] at heq
        obtain ⟨ho, hσ3, -⟩ := heq
        rw [ho, hσ3] at htriple
        obtain ⟨j2, hj1, hj2, hkey, hσ, hr⟩ := ih (j + 1) r σ2 m htriple h201
        exact ⟨j2, by omega, by omega, hkey, hσ, hr⟩
      next hc =>
        simp only [Prod.mk.injEq, HandlerOutcome.resp.injEq] at heq
        obtain ⟨hr, -, -⟩ := heq
        rw [← hr, statusCode_response] at h201
        exact absurd h201 (by decide)
    next hf =>
      split at heq
      next hk =>
        rcases htriple : createLoop rand clock faults b u σ (j + 1) fuel with ⟨o, σ3, m⟩
        rw [htriple] at heq
        simp only [Prod.mk.injEq] at heq
        obtain ⟨ho, hσ3, -⟩ := heq
        rw [ho, hσ3] at htriple
        obtain ⟨j2, hj1, hj2, hkey, hσ, hr⟩ := ih (j + 1) r σ2 m htriple h201
        exact ⟨j2, by omega, by omega, hkey, hσ, hr⟩
      next hk =>
        simp only [Prod.mk.injEq, HandlerOutcome.resp.injEq] at heq
        obtain ⟨hr, hσ, -⟩ := heq
        exact ⟨j, Nat.le_refl j, by omega, Bool.not_eq_true _ ▸ eq_false_of_ne_true hk, hσ.symm, hr.symm⟩

/-- If every remaining attempt fails its conditional write, the loop runs
out of attempts, returns the post-loop 500 response, leaves the table
unchanged, and makes exactly `fuel` put calls. -/
theorem createLoop_exhaust (rand clock : Nat → Nat) (faults : Nat → Option StoreError)
    (b u : String) (σ : Store) :
    ∀ (fuel j : Nat), (∀ i, i < fuel → condFailB rand faults σ (j + i) = true) →
      createLoop rand clock faults b u σ j fuel =
        (HandlerOutcome.resp (_response 500
            [("error", "Could not generate a unique short code. Try again.")]), σ, fuel) := by
  intro fuel
  induction fuel with
  | zero => intro j _; rfl
  | succ fuel ih =>
    intro j H
    have h0 : condFailB rand faults σ j = true := by
      have := H 0 (by omega)
      rwa [Nat.add_zero] at this
    have hrec := ih (j + 1) (fun i hi => by
      have := H (i + 1) (by omega)
      rwa [show j + (i + 1) = j + 1 + i by omega] at this)
    simp only [createLoop]
    split
    next e hf =>
      simp only [condFailB, hf, beq_iff_eq] at h0
      rw [if_pos h0, hrec]
    next hf =>
      simp only [condFailB, hf] at h0
      rw [if_pos h0, hrec]

/-- If the first `m` attempts fail their conditional write and attempt `m`
raises any other store error, the loop surfaces the database error at once,
leaves the table unchanged, and makes exactly `m + 1` put calls. -/
theorem createLoop_error (rand clock : Nat → Nat) (faults : Nat → Option StoreError)
    (b u : String) (σ : Store) (e : StoreError)
    (hcode : ¬(e.code = "ConditionalCheckFailedException")) :
    ∀ (m fuel j : Nat), m < fuel →
      (∀ i, i < m → condFailB rand faults σ (j + i) = true) →
      faults (j + m) = some e →
      createLoop rand clock faults b u σ j fuel =
        (HandlerOutcome.resp (_response 500
            [("error", "Database error"), ("detail", e.detail)]), σ, m + 1) := by
  intro m
  induction m with
  | zero =>
    intro fuel j hlt _ hfj
    rw [Nat.add_zero] at hfj
    cases fuel with
    | zero => omega
    | succ fuel =>
      simp only [createLoop]
      split
      next e2 hf =>
        rw [hfj] at hf
        obtain rfl : e = e2 := by
          have := Option.some.injEq e e2
          exact Option.some.inj hf.symm ▸ rfl
        rw [if_neg hcode]
      next hf =>
        rw [hfj] at hf
        exact absurd hf (Option.noConfusion)
  | succ m ih =>
    intro fuel j hlt H hfm
    cases fuel with
    | zero => omega
    | succ fuel =>
      have h0 : condFailB rand faults σ j = true := by
        have := H 0 (by omega)
        rwa [Nat.add_zero] at this
      have hrec := ih fuel (j + 1) (by omega)
        (fun i hi => by
          have := H (i + 1) (by omega)
          rwa [show j + (i + 1) = j + 1 + i by omega] at this)
        (by rwa [show j + 1 + m = j + (m + 1) by omega])
      simp only [createLoop]
      split
      next e2 hf =>
        simp only [condFailB, hf, beq_iff_eq] at h0
        rw [if_pos h0, hrec]
      next hf =>
        simp only [condFailB, hf] at h0
        rw [if_pos h0, hrec]

/-- The loop never makes more put calls than it has attempts left. -/
theorem createLoop_attempts_le (rand clock : Nat → Nat) (faults : Nat → Option StoreError)
    (b u : String) (σ : Store) :
    ∀ (fuel j : Nat), (createLoop rand clock faults b u σ j fuel).2.2 ≤ fuel := by
  intro fuel
  induction fuel with
  | zero => intro j; exact Nat.le_refl 0
  | succ fuel ih =>
    intro j
    simp only [createLoop]
    split
    next e hf =>
      split
      · have := ih (j + 1)
        simp only []
        omega
      · simp only []
        omega
    next hf =>
      split
      · have := ih (j + 1)
        simp only []
        omega
      · simp only []
        omega

/-! ### Characterizations of the create handler -/

/-- On a JSON-object body whose stripped `long_url` passes validation, the
handler is exactly the collision loop started at attempt 0 with 5 attempts. -/
theorem create_valid_path (rand clock : Nat → Nat) (faults : Nat → Option StoreError)
    (b : String) (members : List (String × PyJson)) (raw : String) (σ : Store)
    (hget : pyGet members "long_url" (PyJson.str "") = PyJson.str raw)
    (hne : ¬(pyStrip raw = ""))
    (hsw : (pyStartswith (pyStrip raw) "http://" || pyStartswith (pyStrip raw) "https://") = true) :
    create_lambda_handler rand clock faults b (Except.ok (PyJson.obj members)) σ =
      createLoop rand clock faults b (pyStrip raw) σ 0 5 := by
  simp only [create_lambda_handler, hget]
  rw [if_neg hne]
  rw [if_neg (by rw [hsw]; exact Bool.noConfusion)]

/-- Master characterization of a successful create: a 201 outcome can only
arise from a JSON-object body with a string `long_url` whose stripped value
passes both validations, and from a successful conditional insert at some
attempt `j2 < 5` whose candidate code was absent from the table. -/
theorem create_201_spec (rand clock : Nat → Nat) (faults : Nat → Option StoreError)
    (b : String) (body : Except Unit PyJson) (σ : Store)
    (r : Response) (σ2 : Store) (n : Nat)
    (heq : create_lambda_handler rand clock faults b body σ = (HandlerOutcome.resp r, σ2, n))
    (h201 : r.statusCode = 201) :
    ∃ members raw j2,
      body = Except.ok (PyJson.obj members) ∧
      pyGet members "long_url" (PyJson.str "") = PyJson.str raw ∧
      ¬(pyStrip raw = "") ∧
      (pyStartswith (pyStrip raw) "http://" || pyStartswith (pyStrip raw) "https://") = true ∧
      j2 < 5 ∧
      storeHasKey σ (generate_short_code rand (CODE_LENGTH * j2)) = false ∧
      σ2 = (generate_short_code rand (CODE_LENGTH * j2),
            { long_url := pyStrip raw, created_at := clock (2 * j2),
              expires_at := clock (2 * j2 + 1) + 60 * 60 * 24 * 90 }) :: σ ∧
      r = _response 201
        [("short_url", pyRstripSlash b ++ "/" ++ generate_short_code rand (CODE_LENGTH * j2)),
         ("short_code", generate_short_code rand (CODE_LENGTH * j2)),
         ("long_url", pyStrip raw),
         ("expires_in", "90 days")] := by
  cases body with
  | error u =>
    simp only [create_lambda_handler, Prod.mk.injEq, HandlerOutcome.resp.injEq] at heq
    obtain ⟨hr, -, -⟩ := heq
    rw [← hr, statusCode_response] at h201
    exact absurd h201 (by decide)
  | ok v =>
    cases v with
    | obj members =>
      cases hget : pyGet members "long_url" (PyJson.str "") with
      | str raw =>
        simp only [create_lambda_handler, hget] at heq
        by_cases h1 : pyStrip raw = ""
        · rw [if_pos h1] at heq
          simp only [Prod.mk.injEq, HandlerOutcome.resp.injEq] at heq
          obtain ⟨hr, -, -⟩ := heq
          rw [← hr, statusCode_response] at h201
          exact absurd h201 (by decide)
        · rw [if_neg h1] at heq
          cases hsw : (pyStartswith (pyStrip raw) "http://" || pyStartswith (pyStrip raw) "https://") with
          | false =>
            rw [if_pos hsw] at heq
            simp only [Prod.mk.injEq, HandlerOutcome.resp.injEq] at heq
            obtain ⟨hr, -, -⟩ := heq
            rw [← hr, statusCode_response] at h201
            exact absurd h201 (by decide)
          | true =>
            rw [if_neg (by rw [hsw]; exact Bool.noConfusion)] at heq
            obtain ⟨j2, -, hj2, hkey, hσ, hr⟩ :=
              createLoop_201 rand clock faults b (pyStrip raw) σ 5 0 r σ2 n heq h201
            exact ⟨members, raw, j2, rfl, hget, h1, hsw, by omega, hkey, hσ, hr⟩
      | null =>
        simp only [create_lambda_handler, hget, Prod.mk.injEq] at heq
        exact absurd heq.1 (by intro h; exact HandlerOutcome.noConfusion h)
      | bool b2 =>
        simp only [create_lambda_handler, hget, Prod.mk.injEq] at heq
        exact absurd heq.1 (by intro h; exact HandlerOutcome.noConfusion h)
      | num n2 =>
        simp only [create_lambda_handler, hget, Prod.mk.injEq] at heq
        exact absurd heq.1 (by intro h; exact HandlerOutcome.noConfusion h)
      | arr elems =>
        simp only [create_lambda_handler, hget, Prod.mk.injEq] at heq
        exact absurd heq.1 (by intro h; exact HandlerOutcome.noConfusion h)
      | obj members2 =>
        simp only [create_lambda_handler, hget, Prod.mk.injEq] at heq
        exact absurd heq.1 (by intro h; exact HandlerOutcome.noConfusion h)
    | null =>
      simp only [create_lambda_handler, Prod.mk.injEq] at heq
      exact absurd heq.1 (by intro h; exact HandlerOutcome.noConfusion h)
    | bool b2 =>
      simp only [create_lambda_handler, Prod.mk.injEq] at heq
      exact absurd heq.1 (by intro h; exact HandlerOutcome.noConfusion h)
    | num n2 =>
      simp only [create_lambda_handler, Prod.mk.injEq] at heq
      exact absurd heq.1 (by intro h; exact HandlerOutcome.noConfusion h)
    | str s2 =>
      simp only [create_lambda_handler, Prod.mk.injEq] at heq
      exact absurd heq.1 (by intro h; exact HandlerOutcome.noConfusion h)
    | arr elems =>
      simp only [create_lambda_handler, Prod.mk.injEq] at heq
      exact absurd heq.1 (by intro h; exact HandlerOutcome.noConfusion h)

/-! ### Claim theorems -/

/-- C1: whenever the create handler returns success (201), the returned
`short_code` was absent from the store immediately before its insert (the
conditional write only succeeds on an absent key), the final store is the
old store extended with exactly that one record, and every mapping already
present is left intact — so a create call never overwrites an existing
mapping, and the successful attempt (possibly after retries with fresh
codes, within the attempt bound) inserted a code absent from the store. -/
theorem create_unique_insert (rand clock : Nat → Nat) (faults : Nat → Option StoreError)
    (b : String) (body : Except Unit PyJson) (σ : Store)
    (r : Response) (σ2 : Store) (n : Nat)
    (heq : create_lambda_handler rand clock faults b body σ = (HandlerOutcome.resp r, σ2, n))
    (h201 : r.statusCode = 201) :
    ∃ code item,
      respField r "short_code" = some code ∧
      storeHasKey σ code = false ∧
      σ2 = (code, item) :: σ ∧
      ∀ k, storeHasKey σ k = true → storeGetItem σ2 k = storeGetItem σ k := by
  obtain ⟨members, raw, j2, -, -, -, -, -, hkey, hσ, hr⟩ :=
    create_201_spec rand clock faults b body σ r σ2 n heq h201
  refine ⟨generate_short_code rand (CODE_LENGTH * j2),
    { long_url := pyStrip raw, created_at := clock (2 * j2),
      expires_at := clock (2 * j2 + 1) + 60 * 60 * 24 * 90 }, ?_, hkey, hσ, ?_⟩
  · rw [hr]
    exact respField_short_code _ _ _ _
  · intro k hk
    rw [hσ]
    exact storeGetItem_cons_ne _ _ _ _
      (storeHasKey_true_ne σ k (generate_short_code rand (CODE_LENGTH * j2)) hk hkey)

/-- C1 witness: a concrete 201 run on the empty store inserts the fresh
code `"aaaaaaaa"`. -/
theorem create_unique_insert_witness :
    create_lambda_handler rand0 clock0 noFaults "https://sh.rt" body0 ([] : Store) =
      (HandlerOutcome.resp resp201c, store201c, 1) ∧
    resp201c.statusCode = 201 ∧
    ∃ code item,
      respField resp201c "short_code" = some code ∧
      storeHasKey ([] : Store) code = false ∧
      store201c = (code, item) :: ([] : Store) ∧
      ∀ k, storeHasKey ([] : Store) k = true →
        storeGetItem store201c k = storeGetItem ([] : Store) k :=
  ⟨rfl, rfl,
    create_unique_insert rand0 clock0 noFaults "https://sh.rt" body0 [] resp201c store201c 1
      rfl rfl⟩

/-- C2: creating a link for a valid `long_url` (a URL carries no
surrounding whitespace, so stripping it is the identity) and then invoking
the redirect handler on the returned `short_code` yields a 301 response
whose `Location` header is exactly the submitted `long_url`, with an empty
body. -/
theorem create_redirect_roundtrip (rand clock : Nat → Nat) (faults : Nat → Option StoreError)
    (b : String) (σ : Store) (u : String) (r : Response) (σ2 : Store) (n : Nat)
    (hstrip : pyStrip u = u)
    (heq : create_lambda_handler rand clock faults b
      (Except.ok (PyJson.obj [("long_url", PyJson.str u)])) σ = (HandlerOutcome.resp r, σ2, n))
    (h201 : r.statusCode = 201) :
    ∃ code,
      respField r "short_code" = some code ∧
      redirect_lambda_handler (some [("short_code", PyJson.str code)]) none σ2 =
        HandlerOutcome.resp
          { statusCode := 301,
            headers := [("Location", u), ("Access-Control-Allow-Origin", "*")],
            body := RespBody.raw "" } := by
  obtain ⟨members, raw, j2, hbody, hget, -, -, -, -, hσ, hr⟩ :=
    create_201_spec rand clock faults b _ σ r σ2 n heq h201
  obtain rfl : [("long_url", PyJson.str u)] = members := Except.ok.inj hbody |> PyJson.obj.inj
  obtain rfl : u = raw := by
    have h2 : PyJson.str u = PyJson.str raw := hget
    exact PyJson.str.inj h2
  refine ⟨generate_short_code rand (CODE_LENGTH * j2), by rw [hr]; exact respField_short_code _ _ _ _, ?_⟩
  have hp : pyGet [("short_code", PyJson.str (generate_short_code rand (CODE_LENGTH * j2)))]
      "short_code" (PyJson.str "") = PyJson.str (generate_short_code rand (CODE_LENGTH * j2)) := rfl
  simp only [redirect_lambda_handler, Option.getD, hp]
  rw [pyStrip_gen]
  rw [if_neg (gen_ne_empty rand (CODE_LENGTH * j2))]
  rw [hσ, storeGetItem_cons_self]
  rw [hstrip]

/-- C2 witness: the round-trip at `long_url = "https://example.com/page"`. -/
theorem create_redirect_roundtrip_witness :
    pyStrip "https://example.com/page" = "https://example.com/page" ∧
    ∃ code,
      respField resp201c "short_code" = some code ∧
      redirect_lambda_handler (some [("short_code", PyJson.str code)]) none store201c =
        HandlerOutcome.resp
          { statusCode := 301,
            headers := [("Location", "https://example.com/page"),
                        ("Access-Control-Allow-Origin", "*")],
            body := RespBody.raw "" } :=
  ⟨rfl,
    create_redirect_roundtrip rand0 clock0 noFaults "https://sh.rt" []
      "https://example.com/page" resp201c store201c 1 rfl rfl rfl⟩

/-- C5: `generate_short_code` always returns a string of exactly 8
characters, each an ASCII letter or digit (the 62-character alphabet);
consequently the `short_code` field of every successful (201) create
response has exactly 8 such characters. -/
theorem short_code_format :
    (∀ (rand : Nat → Nat) (k : Nat),
      (generate_short_code rand k).length = 8 ∧
      ∀ c, c ∈ (generate_short_code rand k).toList → (c.isAlpha || c.isDigit) = true) ∧
    (∀ (rand clock : Nat → Nat) (faults : Nat → Option StoreError)
       (b : String) (body : Except Unit PyJson) (σ : Store)
       (r : Response) (σ2 : Store) (n : Nat) (c : String),
      create_lambda_handler rand clock faults b body σ = (HandlerOutcome.resp r, σ2, n) →
      r.statusCode = 201 →
      respField r "short_code" = some c →
      c.length = 8 ∧ ∀ ch, ch ∈ c.toList → (ch.isAlpha || ch.isDigit) = true) := by
  constructor
  · intro rand k
    exact ⟨gen_length rand k, fun c hc => ALPHABET_alnum c (gen_chars rand k c hc)⟩
  · intro rand clock faults b body σ r σ2 n c heq h201 hfield
    obtain ⟨members, raw, j2, -, -, -, -, -, -, -, hr⟩ :=
      create_201_spec rand clock faults b body σ r σ2 n heq h201
    rw [hr, respField_short_code] at hfield
    obtain rfl : generate_short_code rand (CODE_LENGTH * j2) = c := Option.some.inj hfield
    exact ⟨gen_length rand _, fun ch hch => ALPHABET_alnum ch (gen_chars rand _ ch hch)⟩

/-- C5 witness: the generator and the concrete 201 run both yield 8
alphanumeric characters. -/
theorem short_code_format_witness :
    ((generate_short_code rand0 0).length = 8 ∧
      (('a').isAlpha || ('a').isDigit) = true) ∧
    ("aaaaaaaa".length = 8 ∧ (('a').isAlpha || ('a').isDigit) = true) :=
  ⟨⟨(short_code_format.1 rand0 0).1,
    (short_code_format.1 rand0 0).2 'a' (by decide)⟩,
   ⟨(short_code_format.2 rand0 clock0 noFaults "https://sh.rt" body0 [] resp201c store201c 1
        "aaaaaaaa" rfl rfl rfl).1,
    (short_code_format.2 rand0 clock0 noFaults "https://sh.rt" body0 [] resp201c store201c 1
        "aaaaaaaa" rfl rfl rfl).2 'a' (by decide)⟩⟩

/-- C3: the create handler makes at most 5 conditional insert attempts on
any request, and when every one of the 5 attempts fails with the
conditional-check failure it returns the 500 exhaustion response having
made exactly 5 store calls — no 6th call — with the store unchanged. -/
theorem create_bounded_retries (rand clock : Nat → Nat) (faults : Nat → Option StoreError)
    (b : String) (σ : Store) :
    (∀ (body : Except Unit PyJson) (o : HandlerOutcome) (σ2 : Store) (n : Nat),
      create_lambda_handler rand clock faults b body σ = (o, σ2, n) → n ≤ 5) ∧
    (∀ (members : List (String × PyJson)) (raw : String),
      pyGet members "long_url" (PyJson.str "") = PyJson.str raw →
      ¬(pyStrip raw = "") →
      (pyStartswith (pyStrip raw) "http://" || pyStartswith (pyStrip raw) "https://") = true →
      (∀ i, i < 5 → condFailB rand faults σ i = true) →
      create_lambda_handler rand clock faults b (Except.ok (PyJson.obj members)) σ =
        (HandlerOutcome.resp (_response 500
            [("error", "Could not generate a unique short code. Try again.")]), σ, 5)) := by
  constructor
  · intro body o σ2 n heq
    cases body with
    | error u =>
      simp only [create_lambda_handler, Prod.mk.injEq] at heq
      omega
    | ok v =>
      cases v with
      | obj members =>
        cases hget : pyGet members "long_url" (PyJson.str "") with
        | str raw =>
          simp only [create_lambda_handler, hget] at heq
          by_cases h1 : pyStrip raw = ""
          · rw [if_pos h1] at heq
            simp only [Prod.mk.injEq] at heq
            omega
          · rw [if_neg h1] at heq
            cases hsw : (pyStartswith (pyStrip raw) "http://" ||
                pyStartswith (pyStrip raw) "https://") with
            | false =>
              rw [if_pos hsw] at heq
              simp only [Prod.mk.injEq] at heq
              omega
            | true =>
              rw [if_neg (by rw [hsw]; exact Bool.noConfusion)] at heq
              have hle := createLoop_attempts_le rand clock faults b (pyStrip raw) σ 5 0
              rw [heq] at hle
              exact hle
        | null =>
          simp only [create_lambda_handler, hget, Prod.mk.injEq] at heq
          omega
        | bool b2 =>
          simp only [create_lambda_handler, hget, Prod.mk.injEq] at heq
          omega
        | num n2 =>
          simp only [create_lambda_handler, hget, Prod.mk.injEq] at heq
          omega
        | arr elems =>
          simp only [create_lambda_handler, hget, Prod.mk.injEq] at heq
          omega
        | obj members2 =>
          simp only [create_lambda_handler, hget, Prod.mk.injEq] at heq
          omega
      | null =>
        simp only [create_lambda_handler, Prod.mk.injEq] at heq
        omega
      | bool b2 =>
        simp only [create_lambda_handler, Prod.mk.injEq] at heq
        omega
      | num n2 =>
        simp only [create_lambda_handler, Prod.mk.injEq] at heq
        omega
      | str s2 =>
        simp only [create_lambda_handler, Prod.mk.injEq] at heq
        omega
      | arr elems =>
        simp only [create_lambda_handler, Prod.mk.injEq] at heq
        omega
  · intro members raw hget hne hsw hcond
    rw [create_valid_path rand clock faults b members raw σ hget hne hsw]
    exact createLoop_exhaust rand clock faults b (pyStrip raw) σ 5 0
      (fun i hi => by have := hcond i hi; rwa [Nat.zero_add])

/-- C3 witness: with a store already holding the code every attempt
generates, the handler returns the exhaustion 500 after exactly 5 calls. -/
theorem create_bounded_retries_witness :
    (5 : Nat) ≤ 5 ∧
    create_lambda_handler rand0 clock0 noFaults "https://sh.rt"
        (Except.ok (PyJson.obj [("long_url", PyJson.str "https://example.com/page")])) store1 =
      (HandlerOutcome.resp (_response 500
          [("error", "Could not generate a unique short code. Try again.")]), store1, 5) :=
  ⟨(create_bounded_retries rand0 clock0 noFaults "https://sh.rt" store1).1
      (Except.ok (PyJson.obj [("long_url", PyJson.str "https://example.com/page")]))
      (HandlerOutcome.resp (_response 500
          [("error", "Could not generate a unique short code. Try again.")])) store1 5 rfl,
   (create_bounded_retries rand0 clock0 noFaults "https://sh.rt" store1).2
      [("long_url", PyJson.str "https://example.com/page")] "https://example.com/page"
      rfl (by decide) rfl (by decide)⟩

/-- C4: if the first `m` attempts (possibly none) fail with the
conditional-check collision and attempt `m` raises any other store error,
the create handler immediately returns 500 with `error` and `detail`,
having made exactly `m + 1` store calls — no retry after a
non-conditional error. -/
theorem create_store_error_no_retry (rand clock : Nat → Nat) (faults : Nat → Option StoreError)
    (b : String) (members : List (String × PyJson)) (raw : String) (σ : Store)
    (m : Nat) (e : StoreError)
    (hget : pyGet members "long_url" (PyJson.str "") = PyJson.str raw)
    (hne : ¬(pyStrip raw = ""))
    (hsw : (pyStartswith (pyStrip raw) "http://" || pyStartswith (pyStrip raw) "https://") = true)
    (hm : m < 5)
    (H : ∀ i, i < m → condFailB rand faults σ i = true)
    (hfm : faults m = some e)
    (hcode : ¬(e.code = "ConditionalCheckFailedException")) :
    create_lambda_handler rand clock faults b (Except.ok (PyJson.obj members)) σ =
      (HandlerOutcome.resp (_response 500
          [("error", "Database error"), ("detail", e.detail)]), σ, m + 1) := by
  rw [create_valid_path rand clock faults b members raw σ hget hne hsw]
  exact createLoop_error rand clock faults b (pyStrip raw) σ e hcode m 5 0 hm
    (fun i hi => by have := H i hi; rwa [Nat.zero_add])
    (by rwa [Nat.zero_add])

/-- C4 witness: a store raising `InternalServerError` on the first call
makes the handler fail at once with a single store call. -/
theorem create_store_error_no_retry_witness :
    errFaults 0 = some { code := "InternalServerError", detail := "boom" } ∧
    ¬(("InternalServerError" : String) = "ConditionalCheckFailedException") ∧
    create_lambda_handler rand0 clock0 errFaults "https://sh.rt"
        (Except.ok (PyJson.obj [("long_url", PyJson.str "https://example.com/page")])) [] =
      (HandlerOutcome.resp (_response 500
          [("error", "Database error"), ("detail", "boom")]), ([] : Store), 1) :=
  ⟨rfl, by decide,
    create_store_error_no_retry rand0 clock0 errFaults "https://sh.rt"
      [("long_url", PyJson.str "https://example.com/page")] "https://example.com/page" [] 0
      { code := "InternalServerError", detail := "boom" }
      rfl (by decide) rfl (by decide)
      (fun i hi => absurd hi (Nat.not_lt_zero i))
      rfl (by decide)⟩

/-- C6 counterexample: a request body that parses as JSON (the array `[]`)
and has no `long_url` field does NOT get a 400 response: `body.get` on a
Python list raises `AttributeError`, which escapes the handler uncaught,
so no response of any status is returned. -/
theorem create_validation_json_object_cex :
    create_lambda_handler rand0 clock0 noFaults "https://sh.rt"
        (Except.ok (PyJson.arr [])) ([] : Store) =
      (HandlerOutcome.uncaught "AttributeError", ([] : Store), 0) ∧
    outcomeStatus (create_lambda_handler rand0 clock0 noFaults "https://sh.rt"
        (Except.ok (PyJson.arr [])) ([] : Store)).1 = none :=
  ⟨rfl, rfl⟩

/-- C6 (amended): for every create request whose body parses as a JSON
OBJECT whose `long_url` member, when present, is a string: if the stripped
`long_url` is missing or empty the handler returns 400 with an error body,
and if it is non-empty but does not start with `http://` or `https://`
(e.g. `ftp://x.com`) the handler returns 400 with an error body; in both
cases the store is untouched and no store write is attempted. -/
theorem create_validation (rand clock : Nat → Nat) (faults : Nat → Option StoreError)
    (b : String) (members : List (String × PyJson)) (raw : String) (σ : Store)
    (hget : pyGet members "long_url" (PyJson.str "") = PyJson.str raw) :
    (pyStrip raw = "" →
      create_lambda_handler rand clock faults b (Except.ok (PyJson.obj members)) σ =
        (HandlerOutcome.resp (_response 400 [("error", "long_url is required")]), σ, 0)) ∧
    (¬(pyStrip raw = "") →
      pyStartswith (pyStrip raw) "http://" = false →
      pyStartswith (pyStrip raw) "https://" = false →
      create_lambda_handler rand clock faults b (Except.ok (PyJson.obj members)) σ =
        (HandlerOutcome.resp (_response 400
            [("error", "long_url must start with http:// or https://")]), σ, 0)) := by
  constructor
  · intro h1
    simp only [create_lambda_handler, hget]
    rw [if_pos h1]
  · intro h1 h2 h3
    simp only [create_lambda_handler, hget]
    rw [if_neg h1]
    rw [if_pos (by rw [h2, h3]; rfl)]

/-- C6 witness: the missing-field and `ftp://x.com` rejections on concrete
requests. -/
theorem create_validation_witness :
    create_lambda_handler rand0 clock0 noFaults "https://sh.rt"
        (Except.ok (PyJson.obj [])) ([] : Store) =
      (HandlerOutcome.resp (_response 400 [("error", "long_url is required")]), ([] : Store), 0) ∧
    create_lambda_handler rand0 clock0 noFaults "https://sh.rt"
        (Except.ok (PyJson.obj [("long_url", PyJson.str "ftp://x.com")])) ([] : Store) =
      (HandlerOutcome.resp (_response 400
          [("error", "long_url must start with http:// or https://")]), ([] : Store), 0) :=
  ⟨(create_validation rand0 clock0 noFaults "https://sh.rt" [] "" [] rfl).1 rfl,
   (create_validation rand0 clock0 noFaults "https://sh.rt"
      [("long_url", PyJson.str "ftp://x.com")] "ftp://x.com" [] rfl).2
      (by decide) rfl rfl⟩

/-- C7: a request body that fails JSON decoding yields 400 with the
dedicated "Request body must be valid JSON" error, the store untouched and
no store write attempted; this message is distinct from both
failed-validation messages. -/
theorem create_malformed_body (rand clock : Nat → Nat) (faults : Nat → Option StoreError)
    (b : String) (σ : Store) :
    create_lambda_handler rand clock faults b (Except.error ()) σ =
      (HandlerOutcome.resp (_response 400
          [("error", "Request body must be valid JSON")]), σ, 0) ∧
    ¬(("Request body must be valid JSON" : String) = "long_url is required") ∧
    ¬(("Request body must be valid JSON" : String) =
        "long_url must start with http:// or https://") :=
  ⟨rfl, by decide, by decide⟩

/-- C9: a redirect request whose stripped short code is non-empty but not
present in the store (never created, or already evicted by TTL expiry)
gets a 404 response with an error body. -/
theorem redirect_not_found (s : String) (σ : Store)
    (hne : ¬(pyStrip s = ""))
    (habs : storeGetItem σ (pyStrip s) = none) :
    redirect_lambda_handler (some [("short_code", PyJson.str s)]) none σ =
      HandlerOutcome.resp (_response 404
        [("error", "Short code " ++ squote ++ pyStrip s ++ squote ++ " not found")]) := by
  have hp : pyGet [("short_code", PyJson.str s)] "short_code" (PyJson.str "") =
      PyJson.str s := rfl
  simp only [redirect_lambda_handler, Option.getD, hp]
  rw [if_neg hne]
  rw [habs]

/-- C9 witness: the code `"zzzz"` on the empty store. -/
theorem redirect_not_found_witness :
    ¬(pyStrip "zzzz" = "") ∧
    redirect_lambda_handler (some [("short_code", PyJson.str "zzzz")]) none ([] : Store) =
      HandlerOutcome.resp (_response 404
        [("error", "Short code " ++ squote ++ pyStrip "zzzz" ++ squote ++ " not found")]) :=
  ⟨by decide, redirect_not_found "zzzz" [] (by decide) rfl⟩

/-- C8 counterexample: the handler computes `created_at` and `expires_at`
from two separate `int(time.time())` calls.  With a clock that ticks one
second between the two reads, the successful create stores
`created_at = 100` but `expires_at = 101 + 7776000 = 7776101`, which is
not `created_at` plus the fixed 90-day offset. -/
theorem create_expires_cex :
    (create_lambda_handler rand0 clockInc noFaults "https://sh.rt" body0 ([] : Store)).2.1 =
      [("aaaaaaaa",
        { long_url := "https://example.com/page", created_at := 100, expires_at := 7776101 })] ∧
    ¬((7776101 : Nat) = 100 + 60 * 60 * 24 * 90) :=
  ⟨rfl, by decide⟩

/-- C8 (amended): every record a successful create writes has
`expires_at = t2 + 7776000` where `t2` is the second clock read of the
inserting attempt; whenever the two clock reads of an attempt return the
same second — the common case, since the two `int(time.time())` calls are
adjacent — the stored record satisfies
`expires_at = created_at + 7776000` exactly, and since records are never
updated this holds for the record's lifetime. -/
theorem expires_at_offset (rand clock : Nat → Nat) (faults : Nat → Option StoreError)
    (b : String) (body : Except Unit PyJson) (σ : Store)
    (r : Response) (σ2 : Store) (n : Nat)
    (hclock : ∀ j, clock (2 * j + 1) = clock (2 * j))
    (heq : create_lambda_handler rand clock faults b body σ = (HandlerOutcome.resp r, σ2, n))
    (h201 : r.statusCode = 201) :
    ∃ code item, σ2 = (code, item) :: σ ∧
      item.expires_at = item.created_at + 60 * 60 * 24 * 90 := by
  obtain ⟨members, raw, j2, -, -, -, -, -, -, hσ, -⟩ :=
    create_201_spec rand clock faults b body σ r σ2 n heq h201
  exact ⟨generate_short_code rand (CODE_LENGTH * j2),
    { long_url := pyStrip raw, created_at := clock (2 * j2),
      expires_at := clock (2 * j2 + 1) + 60 * 60 * 24 * 90 }, hσ,
    by simp only [hclock j2]⟩

/-- C8 amended-claim witness: under a frozen clock the stored record obeys
the 90-day offset. -/
theorem expires_at_offset_witness :
    clock0 1 = clock0 0 ∧
    ∃ code item, store201c = (code, item) :: ([] : Store) ∧
      item.expires_at = item.created_at + 60 * 60 * 24 * 90 :=
  ⟨rfl,
    expires_at_offset rand0 clock0 noFaults "https://sh.rt" body0 [] resp201c store201c 1
      (fun _ => rfl) rfl rfl⟩

/-- C10: the create handler strips surrounding whitespace from `long_url`
before validation and storage: a whitespace-only `long_url` is rejected as
missing (400 "long_url is required"), and a request accepted with a 201
echoes back and stores the stripped value, which may differ from the raw
request field. -/
theorem create_trims_long_url :
    (∀ (rand clock : Nat → Nat) (faults : Nat → Option StoreError)
       (b s : String) (σ : Store),
      s.toList.all Char.isWhitespace = true →
      create_lambda_handler rand clock faults b
          (Except.ok (PyJson.obj [("long_url", PyJson.str s)])) σ =
        (HandlerOutcome.resp (_response 400 [("error", "long_url is required")]), σ, 0)) ∧
    (∀ (rand clock : Nat → Nat) (faults : Nat → Option StoreError)
       (b : String) (members : List (String × PyJson)) (raw : String) (σ : Store)
       (r : Response) (σ2 : Store) (n : Nat),
      create_lambda_handler rand clock faults b (Except.ok (PyJson.obj members)) σ =
        (HandlerOutcome.resp r, σ2, n) →
      pyGet members "long_url" (PyJson.str "") = PyJson.str raw →
      r.statusCode = 201 →
      respField r "long_url" = some (pyStrip raw) ∧
      ∃ code item, σ2 = (code, item) :: σ ∧ item.long_url = pyStrip raw) := by
  constructor
  · intro rand clock faults b s σ hws
    have hstrip : pyStrip s = "" :=
      pyStrip_empty_of_ws s (fun c hc => by
        have := List.all_eq_true.mp hws c hc
        exact this)
    have hget : pyGet [("long_url", PyJson.str s)] "long_url" (PyJson.str "") =
        PyJson.str s := rfl
    simp only [create_lambda_handler, hget]
    rw [if_pos hstrip]
  · intro rand clock faults b members raw σ r σ2 n heq hget h201
    obtain ⟨members2, raw2, j2, hbody, hget2, -, -, -, -, hσ, hr⟩ :=
      create_201_spec rand clock faults b _ σ r σ2 n heq h201
    obtain rfl : members = members2 := Except.ok.inj hbody |> PyJson.obj.inj
    obtain rfl : raw = raw2 := by
      rw [hget] at hget2
      exact PyJson.str.inj hget2
    constructor
    · rw [hr]
      exact respField_long_url _ _ _ _
    · exact ⟨generate_short_code rand (CODE_LENGTH * j2),
        { long_url := pyStrip raw, created_at := clock (2 * j2),
          expires_at := clock (2 * j2 + 1) + 60 * 60 * 24 * 90 }, hσ, rfl⟩

/-- C10 witness: a whitespace-only `long_url` is rejected as missing, and
a padded `long_url` is stored and echoed back stripped. -/
theorem create_trims_long_url_witness :
    create_lambda_handler rand0 clock0 noFaults "https://sh.rt"
        (Except.ok (PyJson.obj [("long_url", PyJson.str "   ")])) ([] : Store) =
      (HandlerOutcome.resp (_response 400 [("error", "long_url is required")]), ([] : Store), 0) ∧
    (respField resp201c "long_url" = some (pyStrip " https://example.com/page ") ∧
      ∃ code item, store201c = (code, item) :: ([] : Store) ∧
        item.long_url = pyStrip " https://example.com/page ") :=
  ⟨create_trims_long_url.1 rand0 clock0 noFaults "https://sh.rt" "   " [] (by decide),
   create_trims_long_url.2 rand0 clock0 noFaults "https://sh.rt"
      [("long_url", PyJson.str " https://example.com/page ")] " https://example.com/page " []
      resp201c store201c 1 rfl rfl rfl⟩
